import Mathlib

/-!
Verification of the correlation/aggregation core of the ai-observability-summarizer
repository against its natural-language specification.

The Python sources embedded here are `src/core/korrel8r_service.py`
(`_extract_unique_trace_ids`, `_trace_detail_contains_error`,
`_fetch_trace_details_for_ids_async`, `_get_error_trace_details_sync`,
`_simplify_trace_detail_to_error_spans`, `fetch_goal_query_objects`) and
`src/core/metrics.py` (`sort_logs_by_severity_then_time`, `_span_is_error_like`,
`_fmt_val`, `_format_span_kv`, `build_correlated_context_from_metrics`).

Python's dynamically-typed JSON-like values are modelled by the inductive type
`PyVal`; dictionaries are association lists with string keys (every dictionary
the embedded code builds or inspects is string-keyed).  Network collaborators
(the Korrel8r client, the Tempo trace service, the pandas-based pair
extraction, environment variables) are abstracted as explicit parameters, so
every embedded function is a pure, executable Lean function of its inputs.
-/

/-- A Python/JSON-like dynamic value: `None`, booleans, integers, strings,
lists, and string-keyed dictionaries (association lists in insertion order). -/
inductive PyVal where
  | none
  | bool (b : Bool)
  | int (n : Int)
  | str (s : String)
  | list (items : List PyVal)
  | dict (fields : List (String × PyVal))
deriving Repr, Inhabited

namespace PyVal

mutual

/-- Structural boolean equality on `PyVal` (used to build `DecidableEq`). -/
def beq : PyVal → PyVal → Bool
  | .none, .none => true
  | .bool a, .bool b => a == b
  | .int a, .int b => a == b
  | .str a, .str b => a == b
  | .list a, .list b => beqList a b
  | .dict a, .dict b => beqFields a b
  | _, _ => false

/-- Elementwise `beq` on lists of values. -/
def beqList : List PyVal → List PyVal → Bool
  | [], [] => true
  | a :: as, b :: bs => beq a b && beqList as bs
  | _, _ => false

/-- Elementwise `beq` on dictionary fields. -/
def beqFields : List (String × PyVal) → List (String × PyVal) → Bool
  | [], [] => true
  | (k₁, v₁) :: as, (k₂, v₂) :: bs => k₁ == k₂ && beq v₁ v₂ && beqFields as bs
  | _, _ => false

end

mutual

theorem eq_of_beq : ∀ (a b : PyVal), beq a b = true → a = b
  | .none, .none, _ => rfl
  | .bool a, .bool b, h => by
      simp only [beq, beq_iff_eq] at h; exact congrArg PyVal.bool h
  | .int a, .int b, h => by
      simp only [beq, beq_iff_eq] at h; exact congrArg PyVal.int h
  | .str a, .str b, h => by
      simp only [beq, beq_iff_eq] at h; exact congrArg PyVal.str h
  | .list a, .list b, h => by
      simp only [beq] at h; exact congrArg PyVal.list (eqList_of_beqList a b h)
  | .dict a, .dict b, h => by
      simp only [beq] at h; exact congrArg PyVal.dict (eqFields_of_beqFields a b h)

theorem eqList_of_beqList : ∀ (a b : List PyVal), beqList a b = true → a = b
  | [], [], _ => rfl
  | x :: xs, y :: ys, h => by
      simp only [beqList, Bool.and_eq_true] at h
      exact congrArg₂ List.cons (eq_of_beq x y h.1) (eqList_of_beqList xs ys h.2)

theorem eqFields_of_beqFields :
    ∀ (a b : List (String × PyVal)), beqFields a b = true → a = b
  | [], [], _ => rfl
  | (k₁, v₁) :: xs, (k₂, v₂) :: ys, h => by
      simp only [beqFields, Bool.and_eq_true, beq_iff_eq] at h
      have h1 : (k₁, v₁) = (k₂, v₂) := by
        rw [h.1.1]; exact congrArg (Prod.mk k₂) (eq_of_beq v₁ v₂ h.1.2)
      exact congrArg₂ List.cons h1 (eqFields_of_beqFields xs ys h.2)

end

mutual

theorem beq_refl : ∀ (a : PyVal), beq a a = true
  | .none => rfl
  | .bool a => by simp [beq]
  | .int a => by simp [beq]
  | .str a => by simp [beq]
  | .list a => by simp only [beq]; exact beqList_refl a
  | .dict a => by simp only [beq]; exact beqFields_refl a

theorem beqList_refl : ∀ (a : List PyVal), beqList a a = true
  | [] => rfl
  | x :: xs => by
      simp only [beqList, Bool.and_eq_true]; exact ⟨beq_refl x, beqList_refl xs⟩

theorem beqFields_refl : ∀ (a : List (String × PyVal)), beqFields a a = true
  | [] => rfl
  | (k, v) :: xs => by
      simp only [beqFields, Bool.and_eq_true, beq_iff_eq]
      exact ⟨⟨trivial, beq_refl v⟩, beqFields_refl xs⟩

end

instance : DecidableEq PyVal := fun a b =>
  if h : beq a b = true then isTrue (eq_of_beq a b h)
  else isFalse (fun he => h (he ▸ beq_refl a))

/-- Python truthiness: `None`, `False`, `0`, `""`, `[]` and an empty dict are
falsy; everything else is truthy. -/
def truthy : PyVal → Bool
  | .none => false
  | .bool b => b
  | .int n => n != 0
  | .str s => !(s == "")
  | .list xs => !xs.isEmpty
  | .dict fs => !fs.isEmpty

/-- `isinstance(v, dict)`. -/
def isDict : PyVal → Bool
  | .dict _ => true
  | _ => false

/-- `isinstance(v, list)`. -/
def isList : PyVal → Bool
  | .list _ => true
  | _ => false

/-- `d.get(k)` on a dictionary: the value stored under `k`, `None` when the key
is absent.  Applied to a non-dictionary it also yields `None`; each call site
only does so where the Python source guards with `isinstance` or an enclosing
`try/except`. -/
def get : PyVal → String → PyVal
  | .dict fs, k =>
      match fs.find? (fun p => p.1 == k) with
      | some p => p.2
      | Option.none => .none
  | _, _ => .none

/-- `d.get(k, default)`: the value stored under `k`, the default when the key
is absent (or the receiver is not a dictionary). -/
def getD (v : PyVal) (k : String) (dflt : PyVal) : PyVal :=
  match v with
  | .dict fs =>
      match fs.find? (fun p => p.1 == k) with
      | some p => p.2
      | Option.none => dflt
  | _ => dflt

end PyVal

/-- Python's short-circuiting `a or b`: `a` when truthy, else `b`. -/
def pyOr (a b : PyVal) : PyVal := if a.truthy then a else b

/-- Whether `pat` occurs in `hay` as a contiguous run of characters. -/
def charsContain (hay pat : List Char) : Bool :=
  match hay with
  | [] => pat.isEmpty
  | _ :: t => pat.isPrefixOf hay || charsContain t pat

/-- Python's substring test `pat in hay` on strings. -/
def strContainsSub (hay pat : String) : Bool := charsContain hay.data pat.data

/-!
String primitives over the character list, so every definition below reduces
inside the kernel (several core `String` operations are compiled externally
or by well-founded recursion and do not).  The embedded code only handles
ASCII text, where these agree with Python's `lower`/`upper`/`strip`. -/

/-- Python's `str.lower()` (ASCII). -/
def strToLower (s : String) : String := String.mk (s.data.map Char.toLower)

/-- Python's `str.upper()` (ASCII). -/
def strToUpper (s : String) : String := String.mk (s.data.map Char.toUpper)

/-- Python's `str.strip()`: drop whitespace from both ends. -/
def strTrim (s : String) : String :=
  String.mk
    (((s.data.dropWhile Char.isWhitespace).reverse.dropWhile Char.isWhitespace).reverse)

/-- Whether `s` ends with `suffix`. -/
def strEndsWith (s suffix : String) : Bool :=
  suffix.data.reverse.isPrefixOf s.data.reverse

/-- The first `n` characters of `s`. -/
def strTake (s : String) (n : Nat) : String := String.mk (s.data.take n)

/-- `s` without its first `n` characters. -/
def strDrop (s : String) (n : Nat) : String := String.mk (s.data.drop n)

/-- `s` without its last `n` characters. -/
def strDropRight (s : String) (n : Nat) : String :=
  String.mk (s.data.take (s.data.length - n))

/-- Split a character list at every occurrence of the character `c`
(Python's `split` for a one-character separator, which is the only separator
the embedded code splits on). -/
def splitOnChar (c : Char) : List Char → List (List Char)
  | [] => [[]]
  | x :: rest =>
      if x = c then [] :: splitOnChar c rest
      else
        match splitOnChar c rest with
        | [] => [[x]]
        | h :: t => (x :: h) :: t

/-- Python's `s.split(c)` for a one-character separator. -/
def strSplitOnChar (s : String) (c : Char) : List String :=
  (splitOnChar c s.data).map String.mk

/-- Join strings with a separator. -/
def strIntercalate (sep : String) : List String → String
  | [] => ""
  | [x] => x
  | x :: rest => x ++ sep ++ strIntercalate sep rest

/-- Python's `s.replace(c, repl)` for a one-character pattern. -/
def strReplaceChar (s : String) (c : Char) (repl : String) : String :=
  String.mk ((s.data.map (fun ch => if ch = c then repl.data else [ch])).flatten)

/-- The numeric value of a run of decimal digits. -/
def digitsToNat (cs : List Char) : Nat :=
  cs.foldl (fun acc c => acc * 10 + (c.toNat - 48)) 0

mutual

/-- Python's `repr` for the values modelled here.  String escaping inside
containers is elided (no string the embedded code ever `repr`s this way
contains a quote or backslash). -/
def pyRepr : PyVal → String
  | .none => "None"
  | .bool true => "True"
  | .bool false => "False"
  | .int n => toString n
  | .str s => "'" ++ s ++ "'"
  | .list xs => "[" ++ strIntercalate ", " (pyReprList xs) ++ "]"
  | .dict fs => "\x7b" ++ strIntercalate ", " (pyReprFields fs) ++ "\x7d"

/-- `repr` of each element of a list. -/
def pyReprList : List PyVal → List String
  | [] => []
  | x :: xs => pyRepr x :: pyReprList xs

/-- `repr` of each `key: value` field of a dictionary. -/
def pyReprFields : List (String × PyVal) → List String
  | [] => []
  | (k, v) :: xs => ("'" ++ k ++ "': " ++ pyRepr v) :: pyReprFields xs

end

/-- Python's `str(v)`: the string itself for strings, `repr`-style text for
everything else (`str(None) = "None"`, `str(True) = "True"`, decimal for
integers, `repr` for containers). -/
def pyStr : PyVal → String
  | .str s => s
  | v => pyRepr v

/-! ## `korrel8r_service._extract_unique_trace_ids` -/

/-- The item list examined by `_extract_unique_trace_ids`: the dict elements of
a list result, the dict elements of a dict result's `data` list, or the dict
result itself as a singleton; anything else yields no items. -/
def extractTraceItems (obj_result : PyVal) : List PyVal :=
  match obj_result with
  | .list xs => xs.filter PyVal.isDict
  | .dict _ =>
      match obj_result.get "data" with
      | .list xs => xs.filter PyVal.isDict
      | _ => [obj_result]
  | _ => []

/-- The trace-id candidate of one item, following the source's fallback chain:
`context.traceID or context.traceId`, and when that is falsy,
`item.traceID or item.traceId or item.id`. -/
def traceIdOfItem (it : PyVal) : PyVal :=
  let context := if it.isDict then it.get "context" else .none
  let trace_id :=
    if context.isDict then pyOr (context.get "traceID") (context.get "traceId")
    else .none
  if !trace_id.truthy && it.isDict then
    pyOr (pyOr (it.get "traceID") (it.get "traceId")) (it.get "id")
  else trace_id

/-- The loop body of `_extract_unique_trace_ids`: append the item's candidate
when it is a non-empty string not collected before.  The source's `seen` set
always holds exactly the elements of the accumulated list, so membership in
the accumulator stands in for it. -/
def extractStep (trace_ids : List String) (it : PyVal) : List String :=
  match traceIdOfItem it with
  | .str s => if s ≠ "" ∧ s ∉ trace_ids then trace_ids ++ [s] else trace_ids
  | _ => trace_ids

/-- Extract unique trace IDs from Korrel8r trace objects
(`korrel8r_service.py` lines 15-42). -/
def _extract_unique_trace_ids (obj_result : PyVal) : List String :=
  (extractTraceItems obj_result).foldl extractStep []

/-- The ID an item offers before deduplication: its trace-id candidate when
that is a non-empty string, nothing otherwise. -/
def candidateOfItem (it : PyVal) : Option String :=
  match traceIdOfItem it with
  | .str s => if s = "" then Option.none else some s
  | _ => Option.none

/-- The candidate IDs of `_extract_unique_trace_ids` before deduplication, in
item order. -/
def candidateTraceIds (obj_result : PyVal) : List String :=
  (extractTraceItems obj_result).filterMap candidateOfItem

/-- First-seen-order deduplication: fold the list into `acc`, appending each
element not already present. -/
def dedupFirst (acc : List String) : List String → List String
  | [] => acc
  | x :: xs => dedupFirst (if x ∈ acc then acc else acc ++ [x]) xs

/-! ## `korrel8r_service._trace_detail_contains_error` -/

/-- The error-like keywords of `_trace_detail_contains_error`
(`korrel8r_service.py` line 59). -/
def errorKeywords : List String := ["error", "exception", "fatal", "panic", "fail"]

/-- One tag of a span matches the error heuristic: an explicit error/status
key with a truthy/error value, or a keyword in the key together with a keyword
(or `true`/`1`) in the value; key and value are `str(...)`-ed and lowercased
first (`korrel8r_service.py` lines 70-79). -/
def tagSignalsError (tg : PyVal) : Bool :=
  let key := strToLower (pyStr (tg.getD "key" (.str "")))
  let val := strToLower (pyStr (tg.getD "value" (.str "")))
  (decide (key ∈ ["error", "otel.status_code", "status.code", "span.status.code"]) &&
    decide (val ∈ ["true", "1", "error"])) ||
  (errorKeywords.any (fun k => strContainsSub key k) &&
    (errorKeywords ++ ["true", "1"]).any (fun k => strContainsSub val k))

/-- One Jaeger-style log field matches the error heuristic: `event` with an
exception/error/fatal value, or a keyword in the key or in the value
(`korrel8r_service.py` lines 88-96). -/
def logFieldSignalsError (f : PyVal) : Bool :=
  let fkey := strToLower (pyStr (f.getD "key" (.str "")))
  let fval := strToLower (pyStr (f.getD "value" (.str "")))
  (fkey == "event" && decide (fval ∈ ["exception", "error", "fatal"])) ||
  errorKeywords.any (fun k => strContainsSub fkey k) ||
  errorKeywords.any (fun k => strContainsSub fval k)

/-- A span carries an error signal in its tags or its log events
(`korrel8r_service.py` lines 64-96); non-dict tags/logs/fields are skipped,
and a non-list `tags`/`logs` value contributes nothing. -/
def spanSignalsError (sp : PyVal) : Bool :=
  sp.isDict &&
  ((match pyOr (sp.get "tags") (.list []) with
    | .list tgs => tgs.any (fun tg => tg.isDict && tagSignalsError tg)
    | _ => false) ||
   (match pyOr (sp.get "logs") (.list []) with
    | .list lgs =>
        lgs.any (fun lg =>
          lg.isDict &&
          (match pyOr (lg.get "fields") (.list []) with
           | .list fs => fs.any (fun f => f.isDict && logFieldSignalsError f)
           | _ => false))
    | _ => false))

/-- Scan the `trace.data` entries of a detail for an error signal.  A truthy
non-iterable `spans` value makes the source's `for sp in spans` raise; the
enclosing `try/except` then returns `False` for the whole detail, which the
last match arm reproduces.  Iterating a dict or string yields no dict spans,
so those cases scan on. -/
def scanTraceEntries : List PyVal → Bool
  | [] => false
  | tr :: rest =>
      if !tr.isDict then scanTraceEntries rest
      else
        match pyOr (tr.get "spans") (.list []) with
        | .list sps => if sps.any spanSignalsError then true else scanTraceEntries rest
        | .dict _ => scanTraceEntries rest
        | .str _ => scanTraceEntries rest
        | _ => false

/-- Heuristically detect error-like signals within a Tempo/Jaeger trace detail
response (`korrel8r_service.py` lines 45-99): requires a dict with truthy
`success`, then checks `trace.errors` and scans `trace.data[].spans[]`. -/
def _trace_detail_contains_error (detail : PyVal) : Bool :=
  if !detail.isDict || !(detail.get "success").truthy then false
  else
    let trace_payload := pyOr (detail.get "trace") (.dict [])
    if !trace_payload.isDict then false
    else if (trace_payload.get "errors").truthy then true
    else
      match pyOr (trace_payload.get "data") (.list []) with
      | .list trs => scanTraceEntries trs
      | _ => false

/-! ## `korrel8r_service._fetch_trace_details_for_ids_async` -/

/-- The network collaborators of the aggregation pass, abstracted as pure
functions: `Korrel8rClient.list_goals` (receiving the goal list and the start
payload), `Korrel8rClient.query_objects`, `Korrel8rClient.simplify_log_objects`
and `TempoQueryService.get_trace_details`. -/
structure Korrel8rEnv where
  listGoals : List String → PyVal → PyVal
  queryObjects : PyVal → PyVal
  simplifyLogObjects : PyVal → PyVal
  getTraceDetails : String → PyVal

/-- Fetch trace details for the given IDs and keep only those containing
errors (`korrel8r_service.py` lines 102-125).  A fetch whose response is not a
dict, is not error-like, or fails, yields nothing for that ID without
affecting the others; `asyncio.gather` returns results in task order, so the
output follows the input ID order.  The `concurrency` argument (default 10)
bounds simultaneous in-flight fetches and does not affect the value. -/
def _fetch_trace_details_for_ids_async (env : Korrel8rEnv) (trace_ids : List String)
    (concurrency : Nat := 10) : List PyVal :=
  let _ := concurrency
  if trace_ids.isEmpty then []
  else
    (trace_ids.map env.getTraceDetails).filter
      (fun resp => resp.isDict && _trace_detail_contains_error resp)

/-- Synchronous wrapper around `_fetch_trace_details_for_ids_async`
(`korrel8r_service.py` lines 128-144); the event-loop/thread handling does not
change the value. -/
def _get_error_trace_details_sync (env : Korrel8rEnv) (trace_ids : List String) :
    List PyVal :=
  if trace_ids.isEmpty then [] else _fetch_trace_details_for_ids_async env trace_ids

/-! ## `korrel8r_service._simplify_trace_detail_to_error_spans` -/

/-- The keywords of the span-level tag filter, which — unlike
`_trace_detail_contains_error` — also accept `critical`
(`korrel8r_service.py` line 207). -/
def errorKeywordsWithCritical : List String :=
  ["error", "exception", "fatal", "panic", "fail", "critical"]

/-- Whether a tag value, `str(...)`-ed and lowercased, contains one of the
span-filter keywords (`korrel8r_service.py` lines 228-229). -/
def tagValueErrorLike (val : PyVal) : Bool :=
  errorKeywordsWithCritical.any (fun k => strContainsSub (strToLower (pyStr val)) k)

/-- Python dict assignment `d[k] = v` on an association list: update the value
in place when the key exists, else append the pair. -/
def dictAssign (d : List (String × PyVal)) (k : String) (v : PyVal) :
    List (String × PyVal) :=
  if d.any (fun p => p.1 == k) then
    d.map (fun p => if p.1 == k then (k, v) else p)
  else d ++ [(k, v)]

/-- The loop body building `filtered_tags`: keep a tag entry (a dict) only
when its value contains an error-like string, keyed by `str(key)`
(`korrel8r_service.py` lines 223-230). -/
def filteredTagsStep (filtered_tags : List (String × PyVal)) (tg : PyVal) :
    List (String × PyVal) :=
  if !tg.isDict then filtered_tags
  else if tagValueErrorLike (tg.get "value") then
    dictAssign filtered_tags (pyStr (tg.get "key")) (tg.get "value")
  else filtered_tags

/-- Build `filtered_tags` for one span (`korrel8r_service.py` lines 222-230). -/
def filteredTagsOf (tags_list : List PyVal) : List (String × PyVal) :=
  tags_list.foldl filteredTagsStep []

/-- Python dict assignment `d[k] = v` on the span index: overwrite in place
when the key exists (last write wins, as for the source's
`span_ctx_index[...] = ...`), else append. -/
def ctxIndexAssign (d : List (String × (String × String))) (k : String)
    (v : String × String) : List (String × (String × String)) :=
  if d.any (fun p => p.1 == k) then
    d.map (fun p => if p.1 == k then (k, v) else p)
  else d ++ [(k, v)]

/-- Build the `spanID -> (namespace, pod)` index from the related objects
returned by `query_objects` (`korrel8r_service.py` lines 158-197). -/
def buildSpanCtxIndex (related_objects : PyVal) : List (String × (String × String)) :=
  let items : List PyVal :=
    match related_objects with
    | .list xs => xs.filter PyVal.isDict
    | .dict _ =>
        match related_objects.get "data" with
        | .list xs => xs.filter PyVal.isDict
        | _ => []
    | _ => []
  items.foldl
    (fun span_ctx_index it =>
      let ctx := if (it.get "context").isDict then it.get "context" else .dict []
      let span_id :=
        pyOr (pyOr (ctx.get "spanID") (ctx.get "spanId"))
          (pyOr (it.get "spanID") (it.get "spanId"))
      match span_id with
      | .str s =>
          if s = "" then span_ctx_index
          else
            let attrs := if (it.get "attributes").isDict then it.get "attributes" else .dict []
            let ns :=
              pyOr (pyOr (attrs.get "k8s.namespace.name") (attrs.get "kubernetes.namespace_name"))
                (pyOr (attrs.get "namespace") (.str ""))
            let pod :=
              pyOr (pyOr (attrs.get "k8s.pod.name") (attrs.get "kubernetes.pod_name"))
                (pyOr (pyOr (attrs.get "pod") (attrs.get "service.name")) (.str ""))
            ctxIndexAssign span_ctx_index s (pyStr ns, pyStr pod)
      | _ => span_ctx_index)
    []

/-- Assemble one simplified span dict from a raw span and its filtered tags,
optionally enriched with `namespace`/`pod` from the span index
(`korrel8r_service.py` lines 234-254). -/
def mkSimplifiedSpan (span_ctx_index : List (String × (String × String)))
    (trace_id : PyVal) (sp : PyVal) (filtered_tags : List (String × PyVal)) : PyVal :=
  let base : List (String × PyVal) :=
    [("traceID", trace_id),
     ("spanID", pyOr (sp.get "spanID") (sp.get "spanId")),
     ("operationName", pyOr (sp.get "operationName") (sp.get "operation")),
     ("startTime", sp.get "startTime"),
     ("duration", sp.get "duration"),
     ("tags", .dict filtered_tags)]
  let sid := pyStr (pyOr (pyOr (sp.get "spanID") (sp.get "spanId")) (.str ""))
  match span_ctx_index.find? (fun p => p.1 == sid) with
  | some (_, (ns_val, pod_val)) =>
      let withNs := if ns_val ≠ "" then base ++ [("namespace", .str ns_val)] else base
      .dict (if pod_val ≠ "" then withNs ++ [("pod", .str pod_val)] else withNs)
  | Option.none => .dict base

/-- Simplify one raw span: `None` when it is not a dict, its `tags` is not a
list, or no tag survives the value filter; otherwise the assembled simplified
span (`korrel8r_service.py` lines 215-255). -/
def simplifySpan (span_ctx_index : List (String × (String × String)))
    (trace_id : PyVal) (sp : PyVal) : Option PyVal :=
  if !sp.isDict then Option.none
  else
    match pyOr (sp.get "tags") (.list []) with
    | .list tags_list =>
        let filtered_tags := filteredTagsOf tags_list
        if filtered_tags = [] then Option.none
        else some (mkSimplifiedSpan span_ctx_index trace_id sp filtered_tags)
    | _ => Option.none

/-- The `trace.data` list of a detail response, empty for any malformed shape
(`korrel8r_service.py` lines 199-206). -/
def traceEntriesOf (detail : PyVal) : List PyVal :=
  if !detail.isDict || !(detail.get "success").truthy then []
  else
    let trace_payload := pyOr (detail.get "trace") (.dict [])
    if !trace_payload.isDict then []
    else
      match pyOr (trace_payload.get "data") (.list []) with
      | .list trs => trs
      | _ => []

/-- The raw spans of one `trace.data` entry; empty when the entry or its
`spans` value has the wrong shape (`korrel8r_service.py` lines 208-214). -/
def spansOfTraceEntry (tr : PyVal) : List PyVal :=
  if !tr.isDict then []
  else
    match pyOr (tr.get "spans") (.list []) with
    | .list sps => sps
    | _ => []

/-- The raw tag list of one span; empty when `tags` is missing or not a list
(such a span is skipped by the simplifier). -/
def rawTagsOf (sp : PyVal) : List PyVal :=
  match pyOr (sp.get "tags") (.list []) with
  | .list tags_list => tags_list
  | _ => []

/-- Simplify a Tempo/Jaeger trace detail response to the list of spans that
contain error-like tags (`korrel8r_service.py` lines 147-261): walk
`trace.data[].spans[]`, keep per span only the tags whose value contains an
error-like string, and drop spans retaining no tags. -/
def _simplify_trace_detail_to_error_spans (detail : PyVal)
    (related_objects : PyVal := .none) : List PyVal :=
  let span_ctx_index := buildSpanCtxIndex related_objects
  ((traceEntriesOf detail).map
    (fun tr =>
      let trace_id := pyOr (tr.get "traceID") (tr.get "traceId")
      (spansOfTraceEntry tr).filterMap (simplifySpan span_ctx_index trace_id))).flatten

/-! ## `korrel8r_service.fetch_goal_query_objects` -/

/-- The mutable state of one aggregation pass: the two result buckets, the
pass-scoped `seen_trace_ids` set (as a list in insertion order), and — as pure
instrumentation — the successive non-empty ID batches handed to
`_get_error_trace_details_sync`. -/
structure AggState where
  logs : List PyVal
  traces : List PyVal
  seen : List String
  fetchedBatches : List (List String)
deriving Repr, DecidableEq

/-- The fresh state at the start of a pass: empty buckets, empty seen set. -/
def AggState.initial : AggState :=
  { logs := [], traces := [], seen := [], fetchedBatches := [] }

/-- The explicit goal-name field of a goal-result item:
`item.get("goal") or item.get("class") or item.get("name")` for dicts, `None`
otherwise (`korrel8r_service.py` lines 283-289). -/
def explicitGoalName (item : PyVal) : PyVal :=
  if item.isDict then
    pyOr (item.get "goal") (pyOr (item.get "class") (item.get "name"))
  else .none

/-- The goal name used for routing: the explicit field when truthy, else the
positional fallback `goals[idx]` when the index is in range
(`korrel8r_service.py` lines 283-292). -/
def goalNameOf (item : PyVal) (goals : List String) (idx : Nat) : PyVal :=
  let goal_name := explicitGoalName item
  if !goal_name.truthy && idx < goals.length then .str (goals.getD idx "")
  else goal_name

/-- The domain of a goal name: the text before the first `:`, stripped and
lowercased, when the name is a string containing `:`; `""` otherwise
(`korrel8r_service.py` lines 293-295). -/
def domainOf (goal_name : PyVal) : String :=
  match goal_name with
  | .str s =>
      if strContainsSub s ":" then strToLower (strTrim ((strSplitOnChar s ':').headD "")) else ""
  | _ => ""

/-- The routing bucket of a domain: `traces` for `trace`, `logs` for `log`,
and `logs` again for everything else (`korrel8r_service.py` line 296). -/
def bucketOf (domain : String) : String :=
  if domain == "trace" then "traces" else if domain == "log" then "logs" else "logs"

/-- `aggregated[bucket].extend(objs)`: the pass only ever computes the buckets
`"traces"` and `"logs"`, so every other name would be a `KeyError` in the
source and is mapped to the logs bucket here (it is reached by no caller). -/
def AggState.extendBucket (st : AggState) (bucket : String) (objs : List PyVal) :
    AggState :=
  if bucket == "traces" then { st with traces := st.traces ++ objs }
  else { st with logs := st.logs ++ objs }

/-- The fallback aggregation of a raw query result
(`korrel8r_service.py` lines 329-336): extend with a list, extend with a
dict's list-valued `data`, else append the dict whole; other shapes add
nothing. -/
def defaultAggregate (st : AggState) (bucket : String) (obj_result : PyVal) :
    AggState :=
  match obj_result with
  | .list xs => st.extendBucket bucket xs
  | .dict _ =>
      match obj_result.get "data" with
      | .list xs => st.extendBucket bucket xs
      | _ => st.extendBucket bucket [obj_result]
  | _ => st

/-- Process one query of a goal-result (`korrel8r_service.py` lines 299-339):
skip falsy query strings, run `query_objects`, then take the logs branch
(simplify, or fall back), the traces branch (extract IDs, subtract seen,
fetch error details, simplify to error spans), or the fallback.  In the
traces branch the `continue` (line 328) sits inside `if ids_to_fetch:`, so a
trace query yielding no new IDs falls through to the default aggregation and
extends the traces bucket with the raw query result. -/
def processQuery (env : Korrel8rEnv) (bucket : String) (st : AggState) (q : PyVal) :
    AggState :=
  let qstr := if q.isDict then q.get "query" else .none
  if !qstr.truthy then st
  else
    let obj_result := env.queryObjects qstr
    if bucket == "logs" then
      match env.simplifyLogObjects obj_result with
      | .list simplified => { st with logs := st.logs ++ simplified }
      | _ => defaultAggregate st bucket obj_result
    else if bucket == "traces" then
      let trace_ids := _extract_unique_trace_ids obj_result
      let ids_to_fetch := trace_ids.filter (fun tid => decide (tid ∉ st.seen))
      let st1 := { st with seen := st.seen ++ ids_to_fetch }
      if ids_to_fetch.isEmpty then defaultAggregate st1 bucket obj_result
      else
        let error_traces := _get_error_trace_details_sync env ids_to_fetch
        let simplified_spans_all :=
          (error_traces.map
            (fun dt => _simplify_trace_detail_to_error_spans dt obj_result)).flatten
        { st1 with
          traces := st1.traces ++ simplified_spans_all,
          fetchedBatches := st1.fetchedBatches ++ [ids_to_fetch] }
    else defaultAggregate st bucket obj_result

/-- The query list of a goal-result item.  `item.get("queries", [])` with a
truthy non-list value either iterates non-dict elements (each skipped by the
`isinstance` guard) or raises into the per-item `except`, so any non-list
shape contributes nothing (`korrel8r_service.py` line 298). -/
def queriesOfItem (item : PyVal) : List PyVal :=
  match (if item.isDict then item.getD "queries" (.list []) else .list []) with
  | .list qs => qs
  | _ => []

/-- Process one goal-result item: derive its routing bucket, then fold its
queries (`korrel8r_service.py` lines 279-341). -/
def processItem (env : Korrel8rEnv) (goals : List String) (st : AggState)
    (idx : Nat) (item : PyVal) : AggState :=
  let bucket := bucketOf (domainOf (goalNameOf item goals idx))
  (queriesOfItem item).foldl (processQuery env bucket) st

/-- Fold the enumerated goal-result items through `processItem`. -/
def processItems (env : Korrel8rEnv) (goals : List String) :
    Nat → AggState → List PyVal → AggState
  | _, st, [] => st
  | idx, st, item :: rest =>
      processItems env goals (idx + 1) (processItem env goals st idx item) rest

/-- Resolve Korrel8r goals from a start query and aggregate related objects by
signal type (`korrel8r_service.py` lines 264-343).  The start payload is
`{"queries": [query]}`; a non-list `list_goals` result yields the fresh empty
state. -/
def fetch_goal_query_objects (env : Korrel8rEnv) (goals : List String)
    (query : String) : AggState :=
  let start_payload : PyVal := .dict [("queries", .list [.str query])]
  match env.listGoals goals start_payload with
  | .list items => processItems env goals 0 AggState.initial items
  | _ => AggState.initial

/-! ### Ghost mirror of the trace-ID traversal

The following definitions recompute, outside the stateful pass, the
concatenation of all extracted trace-ID lists of the trace-bucket queries, in
traversal order.  They are the specification yardstick against which the
pass's deduplicated fetching is measured. -/

/-- The trace IDs a single query contributes to the traversal: the extracted
unique IDs of its raw result when it is routed to the traces bucket and its
query string is truthy; nothing otherwise. -/
def queryExtractedIds (env : Korrel8rEnv) (bucket : String) (q : PyVal) :
    List String :=
  let qstr := if q.isDict then q.get "query" else .none
  if !qstr.truthy then []
  else if bucket == "logs" then []
  else if bucket == "traces" then _extract_unique_trace_ids (env.queryObjects qstr)
  else []

/-- The trace IDs one goal-result item contributes, across its queries. -/
def itemExtractedIds (env : Korrel8rEnv) (goals : List String) (idx : Nat)
    (item : PyVal) : List String :=
  let bucket := bucketOf (domainOf (goalNameOf item goals idx))
  ((queriesOfItem item).map (queryExtractedIds env bucket)).flatten

/-- The trace IDs of all enumerated items, in traversal order. -/
def itemsExtractedIds (env : Korrel8rEnv) (goals : List String) :
    Nat → List PyVal → List String
  | _, [] => []
  | idx, item :: rest =>
      itemExtractedIds env goals idx item ++ itemsExtractedIds env goals (idx + 1) rest

/-- Every trace ID extracted during one aggregation pass, in traversal order
and before any deduplication. -/
def allExtractedTraceIds (env : Korrel8rEnv) (goals : List String)
    (query : String) : List String :=
  let start_payload : PyVal := .dict [("queries", .list [.str query])]
  match env.listGoals goals start_payload with
  | .list items => itemsExtractedIds env goals 0 items
  | _ => []

/-- The query string of one query entry: `q.get("query")` for dicts, `None`
otherwise (`korrel8r_service.py` line 301). -/
def qstrOf (q : PyVal) : PyVal := if q.isDict then q.get "query" else .none

/-- The `ids_to_fetch` of the traces branch for one query against a given
pass state: the extracted unique IDs minus the already-seen ones
(`korrel8r_service.py` line 316). -/
def newTraceIdsOf (env : Korrel8rEnv) (st : AggState) (q : PyVal) : List String :=
  (_extract_unique_trace_ids (env.queryObjects (qstrOf q))).filter
    (fun tid => decide (tid ∉ st.seen))

/-- The items the fallback aggregation contributes from a raw query result
(`korrel8r_service.py` lines 329-336): the list itself, a dict's list-valued
`data`, or the dict as a singleton; other shapes contribute nothing. -/
def defaultAggregateItems (o : PyVal) : List PyVal :=
  match o with
  | .list xs => xs
  | .dict _ =>
      match o.get "data" with
      | .list xs => xs
      | _ => [o]
  | _ => []

theorem defaultAggregateItems_dict (fs : List (String × PyVal)) :
    defaultAggregateItems (.dict fs)
      = match (PyVal.dict fs).get "data" with
        | PyVal.list xs => xs
        | _ => [PyVal.dict fs] := rfl

/-! ## `metrics.sort_logs_by_severity_then_time`

Python `datetime` values are modelled by their microsecond count together
with their awareness: `datetime.fromisoformat` yields a timezone-aware value
exactly when an offset suffix is present, and CPython refuses to order an
aware value against a naive one with a `TypeError`. -/

/-- A parsed Python datetime: naive (no timezone) with its literal
microseconds, or aware with its microseconds normalized to UTC. -/
inductive PyDatetime where
  | naive (usec : Int)
  | aware (utcUsec : Int)
deriving Repr, DecidableEq

/-- Days since 1970-01-01 of the civil date `y-m-d` (standard civil-calendar
conversion; all divisions act on non-negative operands for the years in use,
where truncating and floor division agree). -/
def daysFromCivil (y m d : Int) : Int :=
  let y := if m ≤ 2 then y - 1 else y
  let era := (if y ≥ 0 then y else y - 399) / 400
  let yoe := y - era * 400
  let mp := (m + 9) % 12
  let doy := (153 * mp + 2) / 5 + d - 1
  let doe := yoe * 365 + yoe / 4 - yoe / 100 + doy
  era * 146097 + doe - 719468

/-- The day count of month `m` in year `y` (Gregorian). -/
def daysInMonth (y m : Nat) : Nat :=
  if m = 2 then
    if y % 4 = 0 ∧ (y % 100 ≠ 0 ∨ y % 400 = 0) then 29 else 28
  else if m ∈ [4, 6, 9, 11] then 30
  else 31

/-- A string of exactly `len` decimal digits, as a number. -/
def parseNatFixed (s : String) (len : Nat) : Option Nat :=
  if s.data.length = len ∧ s.data.all Char.isDigit then some (digitsToNat s.data) else Option.none

/-- Split at the first `+`/`-`, the start of a timezone suffix. -/
def splitAtTz (cs : List Char) : List Char × List Char :=
  match cs with
  | [] => ([], [])
  | c :: t =>
      if c = '+' ∨ c = '-' then ([], c :: t)
      else
        let (a, b) := splitAtTz t
        (c :: a, b)

/-- A `±HH:MM` timezone suffix, in minutes. -/
def parseOffsetMinutes (tz : String) : Option Int :=
  if tz.data.length = 6 then
    let sign := strTake tz 1
    match strSplitOnChar (strDrop tz 1) ':' with
    | [hs, ms] => do
        let h ← parseNatFixed hs 2
        let m ← parseNatFixed ms 2
        if sign = "+" then some ((h : Int) * 60 + m)
        else if sign = "-" then some (-((h : Int) * 60 + m))
        else Option.none
    | _ => Option.none
  else Option.none

/-- A fractional-second digit run (1-6 digits), in microseconds. -/
def fracToUsec (digits : String) : Option Nat :=
  if 1 ≤ digits.data.length ∧ digits.data.length ≤ 6 ∧ digits.data.all Char.isDigit then
    some (digitsToNat digits.data * 10 ^ (6 - digits.data.length))
  else Option.none

/-- A `YYYY-MM-DD` date with calendar validation. -/
def parseDateParts (date : String) : Option (Int × Int × Int) :=
  match strSplitOnChar date '-' with
  | [ys, ms, ds] => do
      let y ← parseNatFixed ys 4
      let mo ← parseNatFixed ms 2
      let dd ← parseNatFixed ds 2
      if 1 ≤ mo ∧ mo ≤ 12 ∧ 1 ≤ dd ∧ dd ≤ daysInMonth y mo then
        some ((y : Int), (mo : Int), (dd : Int))
      else Option.none
  | _ => Option.none

/-- Models `datetime.fromisoformat` on the shapes the surrounding code
produces: `YYYY-MM-DD`, optionally a separator and `HH:MM:SS` with an optional
1-6 digit fraction, optionally a `±HH:MM` offset; an offset makes the result
timezone-aware.  Anything else is a parse failure (`None` after the caller's
`except`). -/
def fromisoformat (s : String) : Option PyDatetime :=
  if s.data.length < 10 then Option.none
  else do
    let (y, mo, dd) ← parseDateParts (strTake s 10)
    let rest := strDrop s 10
    if rest = "" then some (.naive (daysFromCivil y mo dd * 86400000000))
    else
      let timetz := strDrop rest 1
      let (timeCs, tzCs) := splitAtTz timetz.data
      let (hmsStr, fracStr) ←
        (match strSplitOnChar (String.mk timeCs) '.' with
         | [a] => some (a, "")
         | [a, f] => some (a, f)
         | _ => Option.none)
      let (h, mi, sec) ←
        (match strSplitOnChar hmsStr ':' with
         | [hs, ms, ss] => do
             let h ← parseNatFixed hs 2
             let mi ← parseNatFixed ms 2
             let sec ← parseNatFixed ss 2
             if h ≤ 23 ∧ mi ≤ 59 ∧ sec ≤ 59 then some (h, mi, sec) else Option.none
         | _ => Option.none)
      let usec ← if fracStr = "" then some 0 else fracToUsec fracStr
      let total : Int :=
        (daysFromCivil y mo dd * 86400 + (h : Int) * 3600 + (mi : Int) * 60 + (sec : Int))
          * 1000000 + (usec : Int)
      if tzCs.isEmpty then some (.naive total)
      else do
        let offMin ← parseOffsetMinutes (String.mk tzCs)
        some (.aware (total - offMin * 60 * 1000000))

/-- The fractional-tail normalization of `_parse_ts` (`metrics.py` lines
264-275): split at the first `.`, carve the timezone suffix out of the tail
(first `+`/`-` at a position other than 0), keep at most six digit characters
of the remainder, and reassemble. -/
def normalizeFraction (s : String) : String :=
  match strSplitOnChar s '.' with
  | head :: tailParts@(_ :: _) =>
      let tail := strIntercalate "." tailParts
      let (fracCs, tzCs) :=
        match tail.data with
        | [] => ([], [])
        | c0 :: restCs =>
            let (a, b) := splitAtTz restCs
            (c0 :: a, b)
      let digits := (fracCs.filter Char.isDigit).take 6
      let tz := String.mk tzCs
      if digits.isEmpty then head ++ tz
      else head ++ "." ++ String.mk digits ++ tz
  | _ => s

/-- Permissive timestamp parsing (`metrics.py` lines 257-278): empty input is
`None`, a trailing `Z` becomes `+00:00`, the fractional tail is normalized,
then `datetime.fromisoformat`; any parse failure is `None`. -/
def _parse_ts (ts : String) : Option PyDatetime :=
  if ts = "" then Option.none
  else
    let s := strTrim ts
    let s := if strEndsWith s "Z" then strDropRight s 1 ++ "+00:00" else s
    let s := if strContainsSub s "." then normalizeFraction s else s
    fromisoformat s

/-- The severity table of `sort_logs_by_severity_then_time`
(`metrics.py` lines 243-253). -/
def severityRankTable : List (String × Int) :=
  [("FATAL", 7), ("CRITICAL", 7), ("ERROR", 6), ("WARN", 5), ("WARNING", 5),
   ("INFO", 3), ("DEBUG", 2), ("TRACE", 1), ("UNKNOWN", 0)]

/-- The sort key of one log (`metrics.py` lines 280-285): severity rank of the
uppercased level (0 for unrecognized levels), and the parsed timestamp with
the epoch as fallback.  CPython's `datetime.fromtimestamp(0)` is a naive
value whose components depend on the local timezone; it is modelled as
`naive 0` — only its naive-ness is ever relevant here, since every statement
proved below either compares it against another naive value of the same
origin or trips the mixed-awareness `TypeError` before its magnitude could
matter. -/
def _sort_key (log : PyVal) : Int × PyDatetime :=
  let level := strToUpper (pyStr (pyOr (log.get "level") (.str "UNKNOWN")))
  let rank := (severityRankTable.lookup level).getD 0
  let ts := pyStr (pyOr (pyOr (log.get "timestamp") (log.get "ts")) (.str ""))
  match _parse_ts ts with
  | some dt => (rank, dt)
  | Option.none => (rank, .naive 0)

/-- Ordering two Python datetimes: defined within one awareness class, a
`TypeError` across classes (CPython refuses `aware < naive`). -/
def pyDatetimeCompare : PyDatetime → PyDatetime → Except String Ordering
  | .naive a, .naive b => .ok (compare a b)
  | .aware a, .aware b => .ok (compare a b)
  | _, _ => .error "TypeError: cannot compare offset-naive and offset-aware datetimes"

/-- Ordering two sort keys with Python's tuple semantics: the integer ranks
decide when they differ; only on a rank tie are the datetimes compared (and
only there can the comparison raise). -/
def sortKeyCompare (a b : Int × PyDatetime) : Except String Ordering :=
  if a.1 ≠ b.1 then .ok (compare a.1 b.1) else pyDatetimeCompare a.2 b.2

/-- Stable descending insertion of a keyed log into an already-sorted run: the
new element goes after every element whose key is not smaller, which is the
order `sorted(..., reverse=True)` produces.  A failed key comparison
propagates as the `TypeError` the source would raise. -/
def insertLogDesc (x : (Int × PyDatetime) × PyVal) :
    List ((Int × PyDatetime) × PyVal) →
      Except String (List ((Int × PyDatetime) × PyVal))
  | [] => .ok [x]
  | y :: ys => do
      let c ← sortKeyCompare y.1 x.1
      if c = Ordering.lt then .ok (x :: y :: ys)
      else do
        let rest ← insertLogDesc x ys
        .ok (y :: rest)

/-- Sort logs by severity (desc) then timestamp (newest first)
(`metrics.py` lines 237-287).  The result is the stable descending order on
`_sort_key`; an attempt to order an aware key against a naive key on a rank
tie is the `TypeError` CPython's `sorted` raises there (the set of key pairs
an algorithm compares is algorithm-specific, but on the inputs examined below
the compared pairs coincide). -/
def sort_logs_by_severity_then_time (logs : List PyVal) :
    Except String (List PyVal) := do
  let sortedKeyed ← logs.foldlM (fun acc log => insertLogDesc (_sort_key log, log) acc) []
  .ok (sortedKeyed.map (fun p => p.2))

/-! ## `metrics.build_correlated_context_from_metrics` and helpers -/

/-- Render one value for a span line (`metrics.py` lines 1874-1889):
`null`/`true`/`false` for `None` and booleans, decimal for numbers, and for
strings escape double quotes and quote when whitespace is present. -/
def _fmt_val (v : PyVal) : String :=
  match v with
  | .none => "null"
  | .bool b => if b then "true" else "false"
  | .int n => toString n
  | _ =>
      let s := pyStr v
      let s := if strContainsSub s "\"" then strReplaceChar s '"' "\\\"" else s
      if s.data.any Char.isWhitespace then "\"" ++ s ++ "\"" else s

/-- The top-level keys of a span dict, in insertion order. -/
def spanKeys (span_obj : PyVal) : List String :=
  match span_obj with
  | .dict fs => fs.map (fun p => p.1)
  | _ => []

/-- Render one simplified span as a `- trace k=v ...` line
(`metrics.py` lines 1892-1920): the five ordered keys first, the remaining
top-level keys (except `tags`) in sorted order, then the flattened tags
(dict-style in sorted key order, list-style in list order, skipping entries
that are not dicts or have a blank key). -/
def _format_span_kv (span_obj : PyVal) : String :=
  let ordered_keys := ["traceID", "spanID", "operationName", "startTime", "duration"]
  let parts1 := ordered_keys.filterMap
    (fun k =>
      if decide (k ∈ spanKeys span_obj) then
        some (k ++ "=" ++ _fmt_val (span_obj.get k))
      else Option.none)
  let remaining := ((spanKeys span_obj).mergeSort (· ≤ ·)).filterMap
    (fun k =>
      if decide (k ∈ ordered_keys) ∨ k = "tags" then Option.none
      else some (k ++ "=" ++ _fmt_val (span_obj.get k)))
  let tagParts :=
    match span_obj.get "tags" with
    | .dict tfs =>
        ((tfs.map (fun p => p.1)).mergeSort (· ≤ ·)).map
          (fun tk => tk ++ "=" ++ _fmt_val ((PyVal.dict tfs).get tk))
    | .list ts =>
        ts.filterMap
          (fun t =>
            if !t.isDict then Option.none
            else
              let tk := strTrim (pyStr (t.getD "key" (.str "")))
              if tk = "" then Option.none
              else some (tk ++ "=" ++ _fmt_val (t.get "value")))
    | _ => []
  let parts := parts1 ++ remaining ++ tagParts
  if !parts.isEmpty then "- trace " ++ strIntercalate " " parts else "- trace"

/-- The explicit error/status keys of `_span_is_error_like`
(`metrics.py` line 1943). -/
def statusErrorKeys : List String :=
  ["error", "span.status.code", "status.code", "otel.status_code"]

/-- The post-hoc error heuristic on an aggregated span
(`metrics.py` lines 1923-1955): iterate the tag pairs (dict items as they are;
list entries lowercase-keyed, `str`-valued, blank keys dropped) and accept an
explicit error/status value or any value containing one of the six keywords
(the same list, with `critical`, as the span-level tag filter). -/
def _span_is_error_like (span : PyVal) : Bool :=
  let tags := span.getD "tags" (.dict [])
  let kv_iter : List (String × PyVal) :=
    match tags with
    | .dict fs => fs
    | .list ts =>
        ts.filterMap
          (fun t =>
            if !t.isDict then Option.none
            else
              let k := strToLower (pyStr (t.getD "key" (.str "")))
              let v := pyStr (t.getD "value" (.str ""))
              if k ≠ "" then some (k, PyVal.str v) else Option.none)
    | _ => []
  kv_iter.any
    (fun kv =>
      let k := kv.1
      let v := kv.2
      (if decide (k ∈ statusErrorKeys) then
        let vs := strToLower (strTrim (pyStr v))
        (k == "error" && decide (vs ∈ ["true", "1", "yes"])) ||
        decide (vs ∈ ["error", "2", "status_code_error"])
       else false) ||
      errorKeywordsWithCritical.any (fun kw => strContainsSub (strToLower (pyStr v)) kw))

/-- The message of a raw log object: `obj.get("message") or obj.get("line")
or ""` (`metrics.py` line 1991). -/
def logMessageOf (obj : PyVal) : PyVal :=
  pyOr (pyOr (obj.get "message") (obj.get "line")) (.str "")

/-- The uppercased level of a raw log object, defaulting to `UNKNOWN`
(`metrics.py` line 1994). -/
def logLevelUpperOf (obj : PyVal) : String :=
  strToUpper (pyStr (pyOr (obj.get "level") (.str "UNKNOWN")))

/-- The levels the context-assembly severity filter skips
(`metrics.py` line 1996). -/
def excludedLogLevels : List String := ["DEBUG", "INFO", "TRACE", "UNKNOWN"]

/-- The per-entry severity filter of context assembly
(`metrics.py` lines 1989-1998): keep an entry exactly when its message is
truthy and its uppercased level is not one of the excluded four. -/
def log_passes_severity_filter (obj : PyVal) : Bool :=
  (logMessageOf obj).truthy && decide (logLevelUpperOf obj ∉ excludedLogLevels)

/-- An immutable `(namespace, pod)` correlation target
(`metrics.py` lines 189-195). -/
structure NamespacePodPair where
  ns : String
  pod : Option String
deriving DecidableEq, Repr

/-- The fixed goal list of context assembly (`metrics.py` line 1976). -/
def contextGoals : List String := ["log:application", "log:infrastructure", "trace:span"]

/-- The environment of `build_correlated_context_from_metrics`:
the `KORREL8R_ENABLED` flag; the pairs derived by
`extract_namespace_pod_pairs_from_metrics` (a pandas-based derivation,
abstracted; the list enumerates the Python set in its iteration order);
`build_korrel8r_log_query_for_vllm` with `none` covering both a `None` and an
empty (falsy) query; the Korrel8r/Tempo collaborators; and the
`MAX_NUM_LOG_ROWS`, `MAX_NUM_TRACE_SPANS` and `INJECT_VLLM_ERROR_LOG_MSG`
environment settings (both bounds default to 10). -/
structure ContextEnv where
  korrel8rEnabled : Bool
  pairs : List NamespacePodPair
  buildLogQuery : NamespacePodPair → Option String
  korrel8r : Korrel8rEnv
  maxNumLogRows : Nat := 10
  maxNumTraceSpans : Nat := 10
  injectVllmErrorLogMsg : Bool := false

/-- Aggregate logs and traces across all pairs (`metrics.py` lines
1977-2008): per pair, build the query, run the aggregation pass, keep the log
objects passing the severity filter, and extend the trace pool unfiltered. -/
def collectPairStep (env : ContextEnv) (acc : List PyVal × List PyVal)
    (pair : NamespacePodPair) : List PyVal × List PyVal :=
  match env.buildLogQuery pair with
  | Option.none => acc
  | some query_str =>
      let aggregated := fetch_goal_query_objects env.korrel8r contextGoals query_str
      (acc.1 ++ aggregated.logs.filter log_passes_severity_filter,
       acc.2 ++ aggregated.traces)

def collectPairSignals (env : ContextEnv) : List PyVal × List PyVal :=
  env.pairs.foldl (collectPairStep env) ([], [])

/-- Render one surviving log as a context line (`metrics.py` lines
2026-2034); an entry whose message is falsy yields no line. -/
def buildLogLine (obj : PyVal) : Option String :=
  let message := logMessageOf obj
  if !message.truthy then Option.none
  else
    let pod := pyOr (obj.get "pod") (.str "")
    let namespace_val := pyOr (obj.get "namespace") (.str "")
    let level := logLevelUpperOf obj
    some ("- namespace=" ++ pyStr namespace_val ++ " pod=" ++ pyStr pod ++
      " level=" ++ level ++ " " ++ pyStr message)

/-- The synthetic test-only log line (`metrics.py` lines 2054-2058). -/
def injectedErrorLogLine : String :=
  "- namespace=dev pod=llama-3-2-3b-instruct-predictor-649469cd68-8zn49 level=ERROR Server running out of memory"

/-- The body of `build_correlated_context_from_metrics` inside its top-level
`try` (`metrics.py` lines 1970-2063): empty pair set short-circuits to `""`;
otherwise aggregate, sort (whose `TypeError` propagates to the top-level
handler), render the first `maxNumLogRows` log lines, filter the trace pool
post-hoc with `_span_is_error_like`, render the first `maxNumTraceSpans`
trace lines, then optionally append the injected test line. -/
def build_context_body (env : ContextEnv) : Except String String :=
  if env.pairs.isEmpty then .ok ""
  else
    let pools := collectPairSignals env
    (sort_logs_by_severity_then_time pools.1).map
      (fun aggregated_logs_sorted =>
        let lines := (aggregated_logs_sorted.take env.maxNumLogRows).filterMap buildLogLine
        let result_str := strIntercalate "\n" lines
        let filtered_spans := pools.2.filter (fun s => s.isDict && _span_is_error_like s)
        let trace_lines_kv := (filtered_spans.take env.maxNumTraceSpans).map _format_span_kv
        let result_str :=
          if !trace_lines_kv.isEmpty then
            let trace_section_str := strIntercalate "\n" trace_lines_kv
            if result_str ≠ "" then result_str ++ "\n" ++ trace_section_str
            else trace_section_str
          else result_str
        if env.injectVllmErrorLogMsg then
          if result_str ≠ "" then result_str ++ "\n" ++ injectedErrorLogLine
          else injectedErrorLogLine
        else result_str)

/-- Build the correlated log/trace context for the vLLM prompt
(`metrics.py` lines 1958-2065): `""` when the `KORREL8R_ENABLED` flag is off,
and `""` whenever the body raises — the top-level `except` absorbs every
internal failure. -/
def build_correlated_context_from_metrics (env : ContextEnv) : String :=
  if !env.korrel8rEnabled then ""
  else
    match build_context_body env with
    | .ok s => s
    | .error _ => ""

/-! ## Lemmas: first-seen deduplication -/

theorem dedupFirst_nil (acc : List String) : dedupFirst acc [] = acc := rfl

theorem dedupFirst_cons (acc : List String) (x : String) (xs : List String) :
    dedupFirst acc (x :: xs) = dedupFirst (if x ∈ acc then acc else acc ++ [x]) xs := rfl

theorem dedupFirst_append (acc l₁ l₂ : List String) :
    dedupFirst acc (l₁ ++ l₂) = dedupFirst (dedupFirst acc l₁) l₂ := by
  induction l₁ generalizing acc with
  | nil => rfl
  | cons x xs ih => simp only [List.cons_append, dedupFirst_cons, ih]

theorem mem_dedupFirst (l : List String) : ∀ (acc : List String) (s : String),
    s ∈ dedupFirst acc l ↔ s ∈ acc ∨ s ∈ l := by
  induction l with
  | nil => intro acc s; simp [dedupFirst_nil]
  | cons x xs ih =>
      intro acc s
      rw [dedupFirst_cons]
      by_cases hx : x ∈ acc
      · rw [if_pos hx, ih]
        constructor
        · rintro (h | h)
          · exact Or.inl h
          · exact Or.inr (List.mem_cons_of_mem _ h)
        · rintro (h | h)
          · exact Or.inl h
          · rcases List.mem_cons.mp h with h | h
            · exact Or.inl (h ▸ hx)
            · exact Or.inr h
      · rw [if_neg hx, ih]
        simp only [List.mem_append, List.mem_singleton, List.mem_cons]
        tauto

theorem dedupFirst_nodup (l : List String) :
    ∀ acc, acc.Nodup → (dedupFirst acc l).Nodup := by
  induction l with
  | nil => intro acc h; exact h
  | cons x xs ih =>
      intro acc h
      rw [dedupFirst_cons]
      by_cases hx : x ∈ acc
      · rw [if_pos hx]; exact ih acc h
      · rw [if_neg hx]
        refine ih _ ?_
        simp [List.nodup_append, h, hx]

theorem dedupFirst_eq_append_filter (l : List String) :
    ∀ acc, l.Nodup →
      dedupFirst acc l = acc ++ l.filter (fun x => decide (x ∉ acc)) := by
  induction l with
  | nil => intro acc _; simp [dedupFirst_nil]
  | cons x xs ih =>
      intro acc hnd
      have hx_not : x ∉ xs := (List.nodup_cons.mp hnd).1
      have hxs : xs.Nodup := (List.nodup_cons.mp hnd).2
      rw [dedupFirst_cons]
      by_cases hx : x ∈ acc
      · rw [if_pos hx, ih acc hxs]
        simp [List.filter_cons, hx]
      · rw [if_neg hx, ih _ hxs]
        have hfilter : xs.filter (fun y => decide (y ∉ acc ++ [x]))
            = xs.filter (fun y => decide (y ∉ acc)) := by
          apply List.filter_congr
          intro y hy
          have hyx : y ≠ x := fun h => hx_not (h ▸ hy)
          simp [List.mem_append, hyx]
        rw [hfilter]
        simp [List.filter_cons, hx]

/-! ## Lemmas: trace-ID extraction -/

theorem extractStep_eq (acc : List String) (it : PyVal) :
    extractStep acc it =
      match candidateOfItem it with
      | some s => if s ∈ acc then acc else acc ++ [s]
      | Option.none => acc := by
  unfold extractStep candidateOfItem
  cases traceIdOfItem it
  case str s =>
    by_cases hs : s = ""
    · simp [hs]
    · by_cases hm : s ∈ acc <;> simp [hs, hm]
  all_goals rfl

theorem foldl_extractStep_eq (items : List PyVal) :
    ∀ acc, items.foldl extractStep acc = dedupFirst acc (items.filterMap candidateOfItem) := by
  induction items with
  | nil => intro acc; rfl
  | cons it rest ih =>
      intro acc
      rw [List.foldl_cons, List.filterMap_cons, extractStep_eq]
      cases candidateOfItem it
      · exact ih acc
      · exact ih _

theorem extract_unique_trace_ids_eq (o : PyVal) :
    _extract_unique_trace_ids o = dedupFirst [] (candidateTraceIds o) :=
  foldl_extractStep_eq _ []

theorem extract_unique_trace_ids_nodup (o : PyVal) :
    (_extract_unique_trace_ids o).Nodup := by
  rw [extract_unique_trace_ids_eq]
  exact dedupFirst_nodup _ [] List.nodup_nil

theorem mem_extract_unique_trace_ids (o : PyVal) (s : String) :
    s ∈ _extract_unique_trace_ids o ↔ s ∈ candidateTraceIds o := by
  rw [extract_unique_trace_ids_eq, mem_dedupFirst]
  simp

theorem candidateOfItem_ne_empty (it : PyVal) (s : String)
    (h : candidateOfItem it = some s) : s ≠ "" := by
  unfold candidateOfItem at h
  split at h
  · split at h
    · exact absurd h (by simp)
    · next ht =>
        have hts : _ = s := Option.some.inj h
        exact hts ▸ ht
  · exact absurd h (by simp)

/-! ## Lemmas: the pass-scoped seen set and the fetched batches -/

theorem extendBucket_seen (st : AggState) (b : String) (objs : List PyVal) :
    (st.extendBucket b objs).seen = st.seen := by
  unfold AggState.extendBucket; split <;> rfl

theorem extendBucket_fetched (st : AggState) (b : String) (objs : List PyVal) :
    (st.extendBucket b objs).fetchedBatches = st.fetchedBatches := by
  unfold AggState.extendBucket; split <;> rfl

theorem defaultAggregate_dict (st : AggState) (bucket : String)
    (fs : List (String × PyVal)) :
    defaultAggregate st bucket (.dict fs)
      = match (PyVal.dict fs).get "data" with
        | PyVal.list xs => st.extendBucket bucket xs
        | _ => st.extendBucket bucket [PyVal.dict fs] := rfl

theorem defaultAggregate_seen (st : AggState) (bucket : String) (o : PyVal) :
    (defaultAggregate st bucket o).seen = st.seen := by
  cases o
  case list xs => exact extendBucket_seen st bucket xs
  case dict fs =>
    rw [defaultAggregate_dict]
    cases (PyVal.dict fs).get "data" <;> apply extendBucket_seen
  all_goals rfl

theorem defaultAggregate_fetched (st : AggState) (bucket : String) (o : PyVal) :
    (defaultAggregate st bucket o).fetchedBatches = st.fetchedBatches := by
  cases o
  case list xs => exact extendBucket_fetched st bucket xs
  case dict fs =>
    rw [defaultAggregate_dict]
    cases (PyVal.dict fs).get "data" <;> apply extendBucket_fetched
  all_goals rfl

theorem extendBucket_traces (st : AggState) (objs : List PyVal) :
    (st.extendBucket "traces" objs).traces = st.traces ++ objs := rfl

theorem defaultAggregate_traces_extend (st : AggState) (o : PyVal) :
    (defaultAggregate st "traces" o).traces = st.traces ++ defaultAggregateItems o := by
  cases o
  case list xs => exact extendBucket_traces st xs
  case dict fs =>
    rw [defaultAggregate_dict, defaultAggregateItems_dict]
    cases (PyVal.dict fs).get "data" <;> exact extendBucket_traces st _
  all_goals simp [defaultAggregate, defaultAggregateItems]

theorem processQuery_traces_eq (env : Korrel8rEnv) (st : AggState) (q : PyVal)
    (hq : (qstrOf q).truthy = true) :
    processQuery env "traces" st q
      = (if (newTraceIdsOf env st q).isEmpty then
          defaultAggregate { st with seen := st.seen ++ newTraceIdsOf env st q }
            "traces" (env.queryObjects (qstrOf q))
        else
          { st with
            seen := st.seen ++ newTraceIdsOf env st q,
            traces := st.traces
              ++ ((_get_error_trace_details_sync env (newTraceIdsOf env st q)).map
                  (fun dt => _simplify_trace_detail_to_error_spans dt
                    (env.queryObjects (qstrOf q)))).flatten,
            fetchedBatches := st.fetchedBatches ++ [newTraceIdsOf env st q] }) := by
  unfold qstrOf at hq
  unfold processQuery newTraceIdsOf qstrOf
  dsimp only
  rw [hq]
  rfl

theorem processQuery_seen (env : Korrel8rEnv) (bucket : String) (st : AggState)
    (q : PyVal) :
    (processQuery env bucket st q).seen
      = dedupFirst st.seen (queryExtractedIds env bucket q) := by
  unfold processQuery queryExtractedIds
  cases hqt : (if q.isDict then q.get "query" else PyVal.none).truthy
  · simp [hqt, dedupFirst_nil]
  · simp only [hqt, Bool.not_true, Bool.false_eq_true, if_false]
    by_cases hlog : (bucket == "logs") = true
    · simp only [hlog, if_true]
      cases env.simplifyLogObjects (env.queryObjects _) <;>
        simp [defaultAggregate_seen, dedupFirst_nil]
    · simp only [hlog, if_false, Bool.false_eq_true]
      by_cases htr : (bucket == "traces") = true
      · simp only [htr, if_true]
        have hnd := extract_unique_trace_ids_nodup
          (env.queryObjects (if q.isDict then q.get "query" else PyVal.none))
        rw [dedupFirst_eq_append_filter _ _ hnd]
        cases he : (List.filter (fun tid => decide (tid ∉ st.seen))
            (_extract_unique_trace_ids
              (env.queryObjects (if q.isDict then q.get "query" else PyVal.none)))).isEmpty <;>
          simp [defaultAggregate_seen]
      · simp [htr, defaultAggregate_seen, dedupFirst_nil]

theorem processQuery_flatten_inv (env : Korrel8rEnv) (bucket : String)
    (st : AggState) (q : PyVal)
    (h : st.seen = st.fetchedBatches.flatten) :
    (processQuery env bucket st q).seen
      = (processQuery env bucket st q).fetchedBatches.flatten := by
  unfold processQuery
  cases hqt : (if q.isDict then q.get "query" else PyVal.none).truthy
  · simpa [hqt] using h
  · simp only [hqt, Bool.not_true, Bool.false_eq_true, if_false]
    by_cases hlog : (bucket == "logs") = true
    · simp only [hlog, if_true]
      cases env.simplifyLogObjects (env.queryObjects _) <;>
        simpa [defaultAggregate_seen, defaultAggregate_fetched] using h
    · simp only [hlog, if_false, Bool.false_eq_true]
      by_cases htr : (bucket == "traces") = true
      · simp only [htr, if_true]
        cases he : (List.filter (fun tid => decide (tid ∉ st.seen))
            (_extract_unique_trace_ids
              (env.queryObjects (if q.isDict then q.get "query" else PyVal.none)))).isEmpty
        · simp [h]
        · have hnil := List.isEmpty_iff.mp he
          rw [hnil]
          simpa [defaultAggregate_seen, defaultAggregate_fetched] using h
      · simpa [htr, defaultAggregate_seen, defaultAggregate_fetched] using h

theorem foldl_processQuery_seen (env : Korrel8rEnv) (bucket : String) :
    ∀ (qs : List PyVal) (st : AggState),
      (qs.foldl (processQuery env bucket) st).seen
        = dedupFirst st.seen ((qs.map (queryExtractedIds env bucket)).flatten) := by
  intro qs
  induction qs with
  | nil => intro st; rfl
  | cons q rest ih =>
      intro st
      rw [List.foldl_cons, List.map_cons, List.flatten_cons, dedupFirst_append,
        ih, processQuery_seen]

theorem foldl_processQuery_flatten_inv (env : Korrel8rEnv) (bucket : String) :
    ∀ (qs : List PyVal) (st : AggState),
      st.seen = st.fetchedBatches.flatten →
      (qs.foldl (processQuery env bucket) st).seen
        = (qs.foldl (processQuery env bucket) st).fetchedBatches.flatten := by
  intro qs
  induction qs with
  | nil => intro st h; exact h
  | cons q rest ih =>
      intro st h
      rw [List.foldl_cons]
      exact ih _ (processQuery_flatten_inv env bucket st q h)

theorem processItem_seen (env : Korrel8rEnv) (goals : List String) (st : AggState)
    (idx : Nat) (item : PyVal) :
    (processItem env goals st idx item).seen
      = dedupFirst st.seen (itemExtractedIds env goals idx item) := by
  unfold processItem itemExtractedIds
  exact foldl_processQuery_seen env _ _ st

theorem processItems_seen (env : Korrel8rEnv) (goals : List String) :
    ∀ (items : List PyVal) (idx : Nat) (st : AggState),
      (processItems env goals idx st items).seen
        = dedupFirst st.seen (itemsExtractedIds env goals idx items) := by
  intro items
  induction items with
  | nil => intro idx st; rfl
  | cons item rest ih =>
      intro idx st
      unfold processItems itemsExtractedIds
      rw [dedupFirst_append, ih, processItem_seen]

theorem processItems_flatten_inv (env : Korrel8rEnv) (goals : List String) :
    ∀ (items : List PyVal) (idx : Nat) (st : AggState),
      st.seen = st.fetchedBatches.flatten →
      (processItems env goals idx st items).seen
        = (processItems env goals idx st items).fetchedBatches.flatten := by
  intro items
  induction items with
  | nil => intro idx st h; exact h
  | cons item rest ih =>
      intro idx st h
      unfold processItems
      refine ih _ _ ?_
      unfold processItem
      exact foldl_processQuery_flatten_inv env _ _ st h

theorem fetch_goal_query_objects_seen (env : Korrel8rEnv) (goals : List String)
    (query : String) :
    (fetch_goal_query_objects env goals query).seen
      = dedupFirst [] (allExtractedTraceIds env goals query) := by
  unfold fetch_goal_query_objects allExtractedTraceIds
  dsimp only
  cases env.listGoals goals (.dict [("queries", .list [.str query])])
  case list items => exact processItems_seen env goals items 0 AggState.initial
  all_goals rfl

theorem fetch_goal_query_objects_flatten_eq_seen (env : Korrel8rEnv)
    (goals : List String) (query : String) :
    (fetch_goal_query_objects env goals query).fetchedBatches.flatten
      = (fetch_goal_query_objects env goals query).seen := by
  unfold fetch_goal_query_objects
  dsimp only
  cases env.listGoals goals (.dict [("queries", .list [.str query])])
  case list items =>
    exact (processItems_flatten_inv env goals items 0 AggState.initial rfl).symm
  all_goals rfl

/-! ## Lemmas: the span-level tag filter -/

theorem mem_dictAssign (d : List (String × PyVal)) (k : String) (v : PyVal)
    (p : String × PyVal) (hp : p ∈ dictAssign d k v) : p ∈ d ∨ p.2 = v := by
  unfold dictAssign at hp
  split at hp
  · rcases List.mem_map.mp hp with ⟨q, hq, hqe⟩
    by_cases hqk : (q.1 == k) = true
    · rw [if_pos hqk] at hqe
      right; rw [← hqe]
    · rw [if_neg hqk] at hqe
      left; exact hqe ▸ hq
  · rcases List.mem_append.mp hp with h | h
    · exact Or.inl h
    · right
      rw [List.mem_singleton.mp h]

theorem filteredTagsStep_pres (acc : List (String × PyVal)) (tg : PyVal)
    (hacc : ∀ p ∈ acc, tagValueErrorLike p.2 = true) :
    ∀ p ∈ filteredTagsStep acc tg, tagValueErrorLike p.2 = true := by
  intro p hp
  unfold filteredTagsStep at hp
  by_cases hd : (!tg.isDict) = true
  · rw [if_pos hd] at hp; exact hacc p hp
  · rw [if_neg hd] at hp
    by_cases hv : tagValueErrorLike (tg.get "value") = true
    · rw [if_pos hv] at hp
      rcases mem_dictAssign _ _ _ p hp with h | h
      · exact hacc p h
      · rw [h]; exact hv
    · rw [if_neg hv] at hp; exact hacc p hp

theorem foldl_filteredTagsStep_pres (tags_list : List PyVal) :
    ∀ acc, (∀ p ∈ acc, tagValueErrorLike p.2 = true) →
      ∀ p ∈ tags_list.foldl filteredTagsStep acc, tagValueErrorLike p.2 = true := by
  induction tags_list with
  | nil => intro acc hacc; exact hacc
  | cons tg rest ih =>
      intro acc hacc
      rw [List.foldl_cons]
      exact ih _ (filteredTagsStep_pres acc tg hacc)

theorem filteredTagsOf_values_errorLike (tags_list : List PyVal) :
    ∀ p ∈ filteredTagsOf tags_list, tagValueErrorLike p.2 = true :=
  foldl_filteredTagsStep_pres tags_list []
    (fun p hp => absurd hp (List.not_mem_nil p))

theorem mkSimplifiedSpan_get_tags (idx : List (String × (String × String)))
    (trace_id sp : PyVal) (ft : List (String × PyVal)) :
    (mkSimplifiedSpan idx trace_id sp ft).get "tags" = .dict ft := by
  unfold mkSimplifiedSpan
  try dsimp only
  split <;> first
    | rfl
    | (split_ifs <;> rfl)

theorem simplifySpan_eq_some (idx : List (String × (String × String)))
    (trace_id sp out : PyVal) (h : simplifySpan idx trace_id sp = some out) :
    out.get "tags" = .dict (filteredTagsOf (rawTagsOf sp))
    ∧ filteredTagsOf (rawTagsOf sp) ≠ [] := by
  unfold simplifySpan at h
  by_cases hd : (!sp.isDict) = true
  · rw [if_pos hd] at h; exact absurd h (by simp)
  · rw [if_neg hd] at h
    dsimp only at h
    split at h
    · next tags_list heq =>
        have hraw : rawTagsOf sp = tags_list := by unfold rawTagsOf; rw [heq]
        split at h
        · exact absurd h (by simp)
        · next hne =>
            rw [← Option.some.inj h, hraw, mkSimplifiedSpan_get_tags]
            exact ⟨rfl, hne⟩
    · exact absurd h (by simp)

theorem mem_simplify_error_spans_shape (detail related sp : PyVal)
    (h : sp ∈ _simplify_trace_detail_to_error_spans detail related) :
    ∃ tr ∈ traceEntriesOf detail, ∃ sp0 ∈ spansOfTraceEntry tr,
      sp.get "tags" = .dict (filteredTagsOf (rawTagsOf sp0))
      ∧ filteredTagsOf (rawTagsOf sp0) ≠ []
      ∧ ∀ p ∈ filteredTagsOf (rawTagsOf sp0), tagValueErrorLike p.2 = true := by
  unfold _simplify_trace_detail_to_error_spans at h
  dsimp only at h
  rw [List.mem_flatten] at h
  rcases h with ⟨l, hl, hsp⟩
  rw [List.mem_map] at hl
  rcases hl with ⟨tr, htr, rfl⟩
  rw [List.mem_filterMap] at hsp
  rcases hsp with ⟨sp0, hsp0, heq⟩
  rcases simplifySpan_eq_some _ _ _ _ heq with ⟨h1, h2⟩
  exact ⟨tr, htr, sp0, hsp0, h1, h2, filteredTagsOf_values_errorLike _⟩

/-- A span dict whose `tags` entry is a non-empty map all of whose values
contain an error-like keyword — the shape every span produced by the
error-only simplifier has. -/
def IsErrorOnlySimplifiedSpan (sp : PyVal) : Prop :=
  ∃ m, sp.get "tags" = PyVal.dict m ∧ m ≠ [] ∧ ∀ p ∈ m, tagValueErrorLike p.2 = true

theorem mem_simplify_error_spans_isErrorOnly (detail related sp : PyVal)
    (h : sp ∈ _simplify_trace_detail_to_error_spans detail related) :
    IsErrorOnlySimplifiedSpan sp := by
  rcases mem_simplify_error_spans_shape detail related sp h with
    ⟨tr, _, sp0, _, h1, h2, h3⟩
  exact ⟨_, h1, h2, h3⟩

/-! ## Lemmas: everything in the aggregated log pool passed the severity filter -/

theorem collectPairStep_logs_pres (env : ContextEnv)
    (acc : List PyVal × List PyVal) (pair : NamespacePodPair)
    (h : ∀ obj ∈ acc.1, log_passes_severity_filter obj = true) :
    ∀ obj ∈ (collectPairStep env acc pair).1, log_passes_severity_filter obj = true := by
  unfold collectPairStep
  cases env.buildLogQuery pair
  · exact h
  · case some query_str =>
      intro obj hobj
      rw [List.mem_append] at hobj
      rcases hobj with hobj | hobj
      · exact h obj hobj
      · exact (List.mem_filter.mp hobj).2

theorem collectPairSignals_logs_filtered (env : ContextEnv) :
    ∀ obj ∈ (collectPairSignals env).1, log_passes_severity_filter obj = true := by
  unfold collectPairSignals
  have hgen : ∀ (pairs : List NamespacePodPair) (acc : List PyVal × List PyVal),
      (∀ obj ∈ acc.1, log_passes_severity_filter obj = true) →
      ∀ obj ∈ (pairs.foldl (collectPairStep env) acc).1,
        log_passes_severity_filter obj = true := by
    intro pairs
    induction pairs with
    | nil => intro acc h; exact h
    | cons pair rest ih =>
        intro acc h
        rw [List.foldl_cons]
        exact ih _ (collectPairStep_logs_pres env acc pair h)
  exact hgen env.pairs ([], []) (fun obj hobj => absurd hobj (List.not_mem_nil obj))

/-! ## Concrete fixtures for counterexamples and witnesses -/

/-- A trace detail whose only error marker is a tag value containing
`critical` — visible to the span-level filter but not to the trace-level
predicate. -/
def detailCritical : PyVal :=
  .dict [("success", .bool true),
    ("trace", .dict [("data", .list [
      .dict [("traceID", .str "tc"),
        ("spans", .list [
          .dict [("spanID", .str "s9"),
            ("tags", .list [.dict [("key", .str "severity"),
              ("value", .str "critical")]])]])]])])]

/-- The simplified span the span-level filter alone would produce from
`detailCritical`. -/
def simplifiedCriticalSpan : PyVal :=
  .dict [("traceID", .str "tc"), ("spanID", .str "s9"),
    ("operationName", .none), ("startTime", .none), ("duration", .none),
    ("tags", .dict [("severity", .str "critical")])]

/-- A Tempo collaborator serving `detailCritical` for trace ID `tc`. -/
def envC10 : Korrel8rEnv :=
  { listGoals := fun _ _ => .none,
    queryObjects := fun _ => .none,
    simplifyLogObjects := fun _ => .none,
    getTraceDetails := fun tid => if tid = "tc" then detailCritical else .none }

/-- The one `trace.data` entry of `detailC6`: a clean span (`s1`) and an
error span (`s2`). -/
def trEntryC6 : PyVal :=
  .dict [("traceID", .str "t1"),
    ("spans", .list [
      .dict [("spanID", .str "s1"), ("operationName", .str "ok-op"),
        ("tags", .list [.dict [("key", .str "http.status_code"),
          ("value", .str "200")]])],
      .dict [("spanID", .str "s2"),
        ("tags", .list [.dict [("key", .str "otel.status_code"),
          ("value", .str "ERROR")]])]])]

/-- A trace detail that passes the trace-level error predicate (span `s2`
carries `otel.status_code=ERROR`) but also contains the clean span `s1`. -/
def detailC6 : PyVal :=
  .dict [("success", .bool true), ("trace", .dict [("data", .list [trEntryC6])])]

/-- The only entry the trace pool receives from `detailC6`: the simplified
error span `s2`; the clean span `s1` is dropped before pooling. -/
def simplifiedSpanC6 : PyVal :=
  .dict [("traceID", .str "t1"), ("spanID", .str "s2"),
    ("operationName", .none), ("startTime", .none), ("duration", .none),
    ("tags", .dict [("otel.status_code", .str "ERROR")])]

/-- A backend whose goal resolution yields one `trace:span` goal with one
query, whose query returns trace ID `t1`, and whose Tempo serves
`detailC6`. -/
def envC6 : Korrel8rEnv :=
  { listGoals := fun _ _ => .list [
      .dict [("goal", .str "trace:span"),
        ("queries", .list [.dict [("query", .str "trace:span:sel")]])]],
    queryObjects := fun _ => .list [.dict [("traceID", .str "t1")]],
    simplifyLogObjects := fun _ => .none,
    getTraceDetails := fun tid => if tid = "t1" then detailC6 else .none }

/-- The single query entry produced by `envC6`'s goal resolution. -/
def qC6 : PyVal := .dict [("query", .str "trace:span:sel")]

/-- A pass state that has already seen (and fetched) trace ID `t1`, so a
repeat of the same query yields no new IDs and falls through. -/
def stSeenT1 : AggState :=
  { logs := [], traces := [], seen := ["t1"], fetchedBatches := [["t1"]] }

/-- A log entry whose uppercased level `NOTICE` is outside both the claimed
retained set and the excluded set. -/
def objNotice : PyVal :=
  .dict [("message", .str "disk pressure escalated"), ("level", .str "notice")]

/-- A backend whose single log goal yields `objNotice`. -/
def envLogsNotice : Korrel8rEnv :=
  { listGoals := fun _ _ => .list [
      .dict [("goal", .str "log:application"),
        ("queries", .list [.dict [("query", .str "log:application:q")]])]],
    queryObjects := fun _ => .none,
    simplifyLogObjects := fun _ => .list [objNotice],
    getTraceDetails := fun _ => .none }

/-- `envLogsNotice` wrapped as a context environment. -/
def envC4 : ContextEnv :=
  { korrel8rEnabled := true,
    pairs := [⟨"prod", some "svc-1"⟩],
    buildLogQuery := fun _ => some "k8s:Pod.v1:q",
    korrel8r := envLogsNotice }

/-- An ERROR log whose `Z`-suffixed timestamp parses timezone-aware. -/
def logTsAware : PyVal :=
  .dict [("level", .str "ERROR"), ("timestamp", .str "2024-01-01T00:00:00Z"),
    ("message", .str "boom")]

/-- An ERROR log with no timestamp: its sort key falls back to the naive
epoch-0 datetime. -/
def logTsMissing : PyVal :=
  .dict [("level", .str "ERROR"), ("message", .str "later")]

/-- A backend whose single log goal yields the two mixed-awareness ERROR
logs, driving the severity sort into its `TypeError`. -/
def envMixedLogs : Korrel8rEnv :=
  { listGoals := fun _ _ => .list [
      .dict [("goal", .str "log:application"),
        ("queries", .list [.dict [("query", .str "log:application:q")]])]],
    queryObjects := fun _ => .none,
    simplifyLogObjects := fun _ => .list [logTsAware, logTsMissing],
    getTraceDetails := fun _ => .none }

/-- A context environment with the backend flag off and no pairs. -/
def envC8a : ContextEnv :=
  { korrel8rEnabled := false,
    pairs := [],
    buildLogQuery := fun _ => Option.none,
    korrel8r := envMixedLogs }

/-- An enabled context environment whose body fails inside the severity
sort. -/
def envC8b : ContextEnv :=
  { korrel8rEnabled := true,
    pairs := [⟨"prod", Option.none⟩],
    buildLogQuery := fun _ => some "k8s:Pod.v1:q",
    korrel8r := envMixedLogs }

/-- A span with one explicit error-status tag and one clean tag: the
simplifier keeps exactly the error-valued tag. -/
def spanWithStatusTag : PyVal :=
  .dict [("spanID", .str "sW"),
    ("tags", .list [
      .dict [("key", .str "otel.status_code"), ("value", .str "ERROR")],
      .dict [("key", .str "http.method"), ("value", .str "GET")]])]

/-- A successful trace detail holding `spanWithStatusTag`. -/
def detailStatusTag : PyVal :=
  .dict [("success", .bool true), ("trace", .dict [("data", .list [
    .dict [("traceID", .str "tw"), ("spans", .list [spanWithStatusTag])]])])]

/-- The simplified span produced from `detailStatusTag`. -/
def simplifiedStatusSpan : PyVal :=
  .dict [("traceID", .str "tw"), ("spanID", .str "sW"),
    ("operationName", .none), ("startTime", .none), ("duration", .none),
    ("tags", .dict [("otel.status_code", .str "ERROR")])]

/-! ## Claim theorems -/

/-- C1: in `fetch_goal_query_objects`, the goal name of the goal-result at
index `i` is the explicit `goal`/`class`/`name` field when that is truthy,
else the positional fallback `goals[i]` (when in range); the routing bucket is
`traces` exactly when the lowercased, stripped substring before `:` in that
name is `trace`, and `logs` in every other case — including the `log` domain,
unrecognized domains such as `metric:foo`, and names without `:`. -/
theorem goal_routing_spec (item : PyVal) (goals : List String) (idx : Nat) :
    ((explicitGoalName item).truthy = true →
        goalNameOf item goals idx = explicitGoalName item)
    ∧ ((explicitGoalName item).truthy = false → idx < goals.length →
        goalNameOf item goals idx = .str (goals.getD idx ""))
    ∧ bucketOf (domainOf (goalNameOf item goals idx))
        = (if domainOf (goalNameOf item goals idx) = "trace" then "traces" else "logs")
    ∧ bucketOf (domainOf (.str "trace:span")) = "traces"
    ∧ bucketOf (domainOf (.str "log:application")) = "logs"
    ∧ bucketOf (domainOf (.str "metric:foo")) = "logs"
    ∧ bucketOf (domainOf (.str "nodomain")) = "logs" := by
  refine ⟨?_, ?_, ?_, rfl, rfl, rfl, rfl⟩
  · intro ht
    unfold goalNameOf
    simp [ht]
  · intro ht hlt
    unfold goalNameOf
    simp [ht, hlt]
  · unfold bucketOf
    by_cases hd : domainOf (goalNameOf item goals idx) = "trace"
    · simp [hd]
    · by_cases hl : domainOf (goalNameOf item goals idx) = "log" <;> simp [hd, hl]

/-- Witness for C1: an item with no explicit goal field falls back to
`goals[0] = "trace:span"`, which routes to the traces bucket. -/
theorem goal_routing_spec_witness :
    goalNameOf (PyVal.dict []) ["trace:span"] 0 = .str "trace:span"
    ∧ bucketOf (domainOf (goalNameOf (PyVal.dict []) ["trace:span"] 0)) = "traces" := by
  have h := goal_routing_spec (PyVal.dict []) ["trace:span"] 0
  refine ⟨h.2.1 (by decide) (by decide), ?_⟩
  rw [h.2.2.1]
  decide

/-- C2: within one call to `fetch_goal_query_objects`, the ID batches handed
to the trace-detail fetcher, concatenated, are exactly the first-seen
deduplication of every trace ID extracted during the pass.  Hence each trace
ID is fetched at most once per call (the concatenation has no duplicates),
and — the pass starting from an empty seen set — every extracted ID is
fetched in that same call, so the seen set does not persist across separate
top-level calls. -/
theorem fetch_goal_query_objects_dedup_spec (env : Korrel8rEnv)
    (goals : List String) (query : String) :
    (fetch_goal_query_objects env goals query).fetchedBatches.flatten
        = dedupFirst [] (allExtractedTraceIds env goals query)
    ∧ ((fetch_goal_query_objects env goals query).fetchedBatches.flatten).Nodup
    ∧ ∀ tid, tid ∈ (fetch_goal_query_objects env goals query).fetchedBatches.flatten
        ↔ tid ∈ allExtractedTraceIds env goals query := by
  have h1 := (fetch_goal_query_objects_flatten_eq_seen env goals query).trans
    (fetch_goal_query_objects_seen env goals query)
  refine ⟨h1, ?_, ?_⟩
  · rw [h1]
    exact dedupFirst_nodup _ [] List.nodup_nil
  · intro tid
    rw [h1, mem_dedupFirst]
    simp

/-- C7: trace-ID extraction returns, for every raw result shape, the
first-seen deduplication of the per-item candidate IDs; the result has no
duplicates, contains an ID exactly when some item offered it, and every
returned ID is a non-empty string (non-string or falsy candidates offer
nothing, since `candidateOfItem` is `none` for them). -/
theorem extract_unique_trace_ids_spec (obj_result : PyVal) :
    _extract_unique_trace_ids obj_result = dedupFirst [] (candidateTraceIds obj_result)
    ∧ (_extract_unique_trace_ids obj_result).Nodup
    ∧ (∀ s, s ∈ _extract_unique_trace_ids obj_result ↔ s ∈ candidateTraceIds obj_result)
    ∧ (∀ s ∈ _extract_unique_trace_ids obj_result, s ≠ "") := by
  refine ⟨extract_unique_trace_ids_eq _, extract_unique_trace_ids_nodup _,
    fun s => mem_extract_unique_trace_ids _ s, ?_⟩
  intro s hs
  rw [mem_extract_unique_trace_ids] at hs
  unfold candidateTraceIds at hs
  rcases List.mem_filterMap.mp hs with ⟨it, _, hit⟩
  exact candidateOfItem_ne_empty it s hit

/-- Witness for C7: on a list-shaped result with a repeated ID and junk
entries, the extracted ID `a` is a non-empty member. -/
theorem extract_unique_trace_ids_spec_witness :
    ("a" ∈ _extract_unique_trace_ids (PyVal.list
        [.dict [("traceID", .str "a")], .dict [("id", .str "a")], .str "junk"]))
    ∧ "a" ≠ "" := by
  have h := extract_unique_trace_ids_spec (PyVal.list
    [.dict [("traceID", .str "a")], .dict [("id", .str "a")], .str "junk"])
  exact ⟨by decide, h.2.2.2 "a" (by decide)⟩

/-- C3 (code bug): the severity sort orders logs by severity rank descending
with timestamp descending as tie-break — shown on a concrete mixed pool —
but it does **not** never-raise: two same-severity logs, one whose
`Z`-suffixed timestamp parses timezone-aware and one whose missing timestamp
falls back to the naive epoch-0 datetime, make the key comparison raise
CPython's `TypeError` for mixed offset-naive/offset-aware datetimes. -/
theorem sort_logs_severity_time_behavior :
    sort_logs_by_severity_then_time [logTsAware, logTsMissing]
      = Except.error "TypeError: cannot compare offset-naive and offset-aware datetimes"
    ∧ sort_logs_by_severity_then_time
        [.dict [("level", .str "info"), ("timestamp", .str "2024-01-01T00:00:01")],
         .dict [("level", .str "ERROR"), ("timestamp", .str "2024-01-01T00:00:00")],
         .dict [("level", .str "FATAL")],
         .dict [("level", .str "ERROR"), ("timestamp", .str "2024-01-02T00:00:00")]]
      = Except.ok
        [.dict [("level", .str "FATAL")],
         .dict [("level", .str "ERROR"), ("timestamp", .str "2024-01-02T00:00:00")],
         .dict [("level", .str "ERROR"), ("timestamp", .str "2024-01-01T00:00:00")],
         .dict [("level", .str "info"), ("timestamp", .str "2024-01-01T00:00:01")]] :=
  ⟨rfl, rfl⟩

/-- C4 (counterexample): an entry with level `notice` — uppercased `NOTICE`,
outside the claimed retained set `{ERROR, WARN, WARNING, FATAL, CRITICAL}` —
passes the severity filter and survives into the aggregated pool, because the
code excludes only `{DEBUG, INFO, TRACE, UNKNOWN}`. -/
theorem severity_filter_retains_unlisted_level :
    log_passes_severity_filter objNotice = true
    ∧ objNotice ∈ (collectPairSignals envC4).1
    ∧ logLevelUpperOf objNotice = "NOTICE"
    ∧ "NOTICE" ∉ (["ERROR", "WARN", "WARNING", "FATAL", "CRITICAL"] : List String) := by
  exact ⟨rfl, by decide, rfl, by decide⟩

/-- C4 (amended): the severity filter of context assembly excludes exactly
the entries whose message is falsy or whose uppercased level is one of
`{DEBUG, INFO, TRACE, UNKNOWN}`; every entry of the aggregated pool has a
truthy message and a level outside that excluded set (unrecognized levels
such as `NOTICE` are retained). -/
theorem aggregated_logs_pool_filter_spec (env : ContextEnv) :
    (∀ obj ∈ (collectPairSignals env).1,
      (logMessageOf obj).truthy = true ∧ logLevelUpperOf obj ∉ excludedLogLevels)
    ∧ (∀ obj : PyVal, log_passes_severity_filter obj = true
        ↔ ((logMessageOf obj).truthy = true ∧ logLevelUpperOf obj ∉ excludedLogLevels)) := by
  constructor
  · intro obj hobj
    have h := collectPairSignals_logs_filtered env obj hobj
    unfold log_passes_severity_filter at h
    simpa using h
  · intro obj
    unfold log_passes_severity_filter
    simp

/-- Witness for the amended C4 at the concrete pool of `envC4`. -/
theorem aggregated_logs_pool_filter_spec_witness :
    (logMessageOf objNotice).truthy = true
    ∧ logLevelUpperOf objNotice ∉ excludedLogLevels :=
  (aggregated_logs_pool_filter_spec envC4).1 objNotice (by decide)

/-- C5: every span emitted by the error-only simplifier stems from a raw span
of the detail's `trace.data` entries, its tag map is exactly the filter of
that raw span's tags keeping the entries whose value contains an error-like
keyword, that map is non-empty (a span retaining zero tags is dropped, never
emitted with an empty map), and every retained value is error-like. -/
theorem simplify_error_spans_tag_spec (detail related sp : PyVal)
    (h : sp ∈ _simplify_trace_detail_to_error_spans detail related) :
    ∃ tr ∈ traceEntriesOf detail, ∃ sp0 ∈ spansOfTraceEntry tr,
      sp.get "tags" = .dict (filteredTagsOf (rawTagsOf sp0))
      ∧ filteredTagsOf (rawTagsOf sp0) ≠ []
      ∧ ∀ p ∈ filteredTagsOf (rawTagsOf sp0), tagValueErrorLike p.2 = true :=
  mem_simplify_error_spans_shape detail related sp h

/-- Witness for C5: the span with `otel.status_code=ERROR` and a clean
`http.method=GET` tag is simplified to exactly the error-valued tag. -/
theorem simplify_error_spans_tag_spec_witness :
    simplifiedStatusSpan ∈ _simplify_trace_detail_to_error_spans detailStatusTag PyVal.none
    ∧ ∃ tr ∈ traceEntriesOf detailStatusTag, ∃ sp0 ∈ spansOfTraceEntry tr,
        simplifiedStatusSpan.get "tags" = .dict (filteredTagsOf (rawTagsOf sp0))
        ∧ filteredTagsOf (rawTagsOf sp0) ≠ []
        ∧ ∀ p ∈ filteredTagsOf (rawTagsOf sp0), tagValueErrorLike p.2 = true :=
  ⟨by decide,
   simplify_error_spans_tag_spec detailStatusTag PyVal.none simplifiedStatusSpan (by decide)⟩

/-- C6 (counterexample): the aggregation feeding
`build_correlated_context_from_metrics` is not ALL-spans.  The fetched trace
detail `detailC6` has two spans, yet the accumulated trace pool receives only
the simplified error span `s2`: the clean span `s1` is dropped before
pooling, not post-hoc. -/
theorem trace_pool_not_all_spans_counterexample :
    _get_error_trace_details_sync envC6 ["t1"] = [detailC6]
    ∧ traceEntriesOf detailC6 = [trEntryC6]
    ∧ (spansOfTraceEntry trEntryC6).length = 2
    ∧ (fetch_goal_query_objects envC6 contextGoals "q0").traces = [simplifiedSpanC6] :=
  ⟨rfl, rfl, rfl, rfl⟩

/-- C6 (amended): the aggregation feeding the trace pool of
`build_correlated_context_from_metrics` is not ALL-spans and the pool is not
uniformly narrowed either.  For a trace-bucket query, the traces pool receives
exactly one of two contributions: when the query yields new (unseen) trace
IDs, only the error-containing details are fetched and only their error-only
simplified spans are appended (never the details' other spans); when it
yields no new IDs, the `continue` inside `if ids_to_fetch:` is skipped and
the fallback aggregation appends the raw query result ungated.  The
`_span_is_error_like` filter with the `maxNumTraceSpans` cut is then applied
post-hoc to this mixed pool. -/
theorem trace_branch_contribution_spec (env : Korrel8rEnv) (st : AggState)
    (q : PyVal) (hq : (qstrOf q).truthy = true) :
    (newTraceIdsOf env st q ≠ [] →
      (processQuery env "traces" st q).traces
        = st.traces
          ++ ((_get_error_trace_details_sync env (newTraceIdsOf env st q)).map
              (fun dt => _simplify_trace_detail_to_error_spans dt
                (env.queryObjects (qstrOf q)))).flatten
      ∧ ∀ sp ∈ (processQuery env "traces" st q).traces,
          sp ∈ st.traces ∨ IsErrorOnlySimplifiedSpan sp)
    ∧ (newTraceIdsOf env st q = [] →
      (processQuery env "traces" st q).traces
        = st.traces ++ defaultAggregateItems (env.queryObjects (qstrOf q))) := by
  rw [processQuery_traces_eq env st q hq]
  cases he : (newTraceIdsOf env st q).isEmpty
  · simp only [Bool.false_eq_true, if_false]
    refine ⟨fun _ => ⟨by trivial, ?_⟩, fun h0 => ?_⟩
    · intro sp hsp
      have hsp' : sp ∈ st.traces
          ++ ((_get_error_trace_details_sync env (newTraceIdsOf env st q)).map
              (fun dt => _simplify_trace_detail_to_error_spans dt
                (env.queryObjects (qstrOf q)))).flatten := hsp
      rw [List.mem_append] at hsp'
      rcases hsp' with h1 | h1
      · exact Or.inl h1
      · rw [List.mem_flatten] at h1
        rcases h1 with ⟨l, hl, hspl⟩
        rw [List.mem_map] at hl
        rcases hl with ⟨dt, _, rfl⟩
        exact Or.inr (mem_simplify_error_spans_isErrorOnly _ _ _ hspl)
    · rw [h0] at he
      simp at he
  · have hnil := List.isEmpty_iff.mp he
    rw [if_pos rfl]
    refine ⟨fun hne => absurd hnil hne, fun _ => ?_⟩
    rw [defaultAggregate_traces_extend]

/-- Witness for the amended C6, at `envC6`: from a fresh state the query's
new ID `t1` is fetched and only error-only simplified spans enter the pool;
from a state that has already seen `t1`, the same query falls through and
the raw query result extends the pool. -/
theorem trace_branch_contribution_spec_witness :
    ((processQuery envC6 "traces" AggState.initial qC6).traces
        = AggState.initial.traces
          ++ ((_get_error_trace_details_sync envC6
                (newTraceIdsOf envC6 AggState.initial qC6)).map
              (fun dt => _simplify_trace_detail_to_error_spans dt
                (envC6.queryObjects (qstrOf qC6)))).flatten
      ∧ ∀ sp ∈ (processQuery envC6 "traces" AggState.initial qC6).traces,
          sp ∈ AggState.initial.traces ∨ IsErrorOnlySimplifiedSpan sp)
    ∧ ((processQuery envC6 "traces" stSeenT1 qC6).traces
        = stSeenT1.traces ++ defaultAggregateItems (envC6.queryObjects (qstrOf qC6))) :=
  ⟨(trace_branch_contribution_spec envC6 AggState.initial qC6 (by decide)).1 (by decide),
   (trace_branch_contribution_spec envC6 stSeenT1 qC6 (by decide)).2 (by decide)⟩

/-- C8: `build_correlated_context_from_metrics` returns the empty string when
the `KORREL8R_ENABLED` flag is off or the derived pair set is empty, and any
failure of the body (the severity sort's `TypeError` is a real instance)
is absorbed by the top-level handler into an empty string instead of
propagating. -/
theorem build_context_guard_spec (env : ContextEnv) :
    ((env.korrel8rEnabled = false ∨ env.pairs = []) →
        build_correlated_context_from_metrics env = "")
    ∧ (∀ e, build_context_body env = Except.error e →
        build_correlated_context_from_metrics env = "") := by
  constructor
  · rintro (hflag | hpairs)
    · unfold build_correlated_context_from_metrics
      simp [hflag]
    · unfold build_correlated_context_from_metrics
      cases env.korrel8rEnabled
      · rfl
      · unfold build_context_body
        rw [hpairs]
        rfl
  · intro e he
    unfold build_correlated_context_from_metrics
    cases env.korrel8rEnabled
    · rfl
    · rw [he]
      rfl

/-- Witness for C8: the disabled/empty environment yields `""`, and the
enabled environment whose body fails in the severity sort also yields `""`. -/
theorem build_context_guard_spec_witness :
    build_correlated_context_from_metrics envC8a = ""
    ∧ build_correlated_context_from_metrics envC8b = "" :=
  ⟨(build_context_guard_spec envC8a).1 (Or.inl rfl),
   (build_context_guard_spec envC8b).2
     "TypeError: cannot compare offset-naive and offset-aware datetimes" rfl⟩

/-- C10: the trace-level predicate matches only the five keywords without
`critical`, while the span-level tag filter also accepts `critical`.  The
detail whose only error marker is a `severity=critical` tag is rejected whole
by the trace-level stage — the composed error-only pipeline fetches nothing
and yields zero spans — even though the span-level filter alone would retain
the tag. -/
theorem critical_keyword_asymmetry :
    _trace_detail_contains_error detailCritical = false
    ∧ _simplify_trace_detail_to_error_spans detailCritical = [simplifiedCriticalSpan]
    ∧ _get_error_trace_details_sync envC10 ["tc"] = []
    ∧ ((_get_error_trace_details_sync envC10 ["tc"]).map
        (fun dt => _simplify_trace_detail_to_error_spans dt)).flatten = [] :=
  ⟨rfl, rfl, rfl, rfl⟩
